import Mathlib

/-!
Shallow embedding of the over-production report engine
(`src/generate_report.py`) of the post_service_report repository.

Dataframes are modelled as lists of rows, money amounts as rationals,
nullable cells as `Option`, and raising Python code as `Except String`.
-/

deriving instance DecidableEq for Except

namespace PostServiceReport

/-- One line-item record of a facility's input table.  The source frames
carry the columns `srvcrsname` (disposition label, nullable),
`served_prtncount`, `costprice` and an event-date column that the report
code never reads.  `total_cost` models the derived column that
`create_report_pivot_table` adds to the caller's frame in place
(line 10); input frames arrive with it absent (`none`). -/
structure Row where
  srvcrsname : Option String
  served_prtncount : ℚ
  costprice : ℚ
  event_date : Option String := none
  total_cost : Option ℚ := none
deriving DecidableEq

/-- Per-row derived total cost, `df['served_prtncount'] * df['costprice']`
(line 10). -/
def totalCost (r : Row) : ℚ := r.served_prtncount * r.costprice

/-- Whether a label begins with the reserved marker:
`s.str.startswith("**")` (lines 13 and 21). -/
def startsWithMarker (s : String) : Bool := s.data.take 2 == ['*', '*']

/-- Model of `index.str.replace("**", "")` (line 17): pandas ≥ 2.0 replaces
every (non-overlapping, left-to-right) literal occurrence of `**`. -/
def stripMarker : List Char → List Char
  | '*' :: '*' :: rest => stripMarker rest
  | c :: rest => c :: stripMarker rest
  | [] => []

def stripStars (s : String) : String := String.mk (stripMarker s.data)

/-- The label synonym `.replace({"Thrown": "Waste"})` applied to one label
cell (line 33). -/
def renameThrown (s : String) : String := if s = "Thrown" then "Waste" else s

/-- Round-half-to-even on rationals, the rounding used by
`round(..., 2)` / `DataFrame.round(2)` in the source (numpy semantics). -/
def roundHalfEven (q : ℚ) : ℤ :=
  let f : ℤ := ⌊q⌋
  if q - f < 1/2 then f
  else if q - f > 1/2 then f + 1
  else if f % 2 = 0 then f else f + 1

/-- Rounding a money or percentage figure to 2 decimal places. -/
def round2 (q : ℚ) : ℚ := (roundHalfEven (q * 100) : ℚ) / 100

/-- The percentage cell `round(c / denom, 2)` (line 24).  A zero
denominator yields no finite percentage in pandas (NaN); modelled as
`none`, the undefined/null value. -/
def pctOf (c denom : ℚ) : Option ℚ :=
  if denom = 0 then none else some (round2 (c / denom))

/-- Insertion of a key into an ascending list, for the sorted group keys
of `pivot_table` (which sorts its index ascending). -/
def insertSorted (x : String) : List String → List String
  | [] => [x]
  | y :: ys => if x ≤ y then x :: y :: ys else y :: insertSorted x ys

def sortKeys (l : List String) : List String := l.foldr insertSorted []

/-- Model of
`pivot_table(index='srvcrsname', values='total_cost', aggfunc='sum')`
(line 14): one entry per distinct label, ascending, holding the summed
total cost of that label's rows. -/
def pivotGroups (items : List (String × ℚ)) : List (String × ℚ) :=
  (sortKeys (items.map Prod.fst).dedup).map
    (fun k => (k, ((items.filter (fun p => p.1 == k)).map Prod.snd).sum))

/-- One row of the aggregator's output frame: columns
`[facility label, "Cost", "Percentage"]` (lines 27–30). -/
structure SummaryRow where
  category : String
  cost : Option ℚ
  percentage : Option ℚ
deriving DecidableEq

/-- The canonical category order `desired_order` (line 34). -/
def desiredOrder : List String := ["Reused", "Waste", "Donated", "Over Production"]

/-- Lines 16–18: append the synthetic `Over Production` row (the column
sum), strip the `**` marker from every index label, and round every
money figure to 2 decimal places. -/
def roundedPivot (items : List (String × ℚ)) : List (String × ℚ) :=
  ((pivotGroups items) ++
    [("Over Production", ((pivotGroups items).map Prod.snd).sum)]).map
    (fun p => (stripStars p.1, round2 p.2))

/-- Lines 24–33: attach the `Percentage` column (share of the
`Over Production` denominator) and apply the `Thrown → Waste` rename to
the label column. -/
def renamedRows (items : List (String × ℚ)) (denom : ℚ) : List SummaryRow :=
  (roundedPivot items).map
    (fun p => ⟨renameThrown p.1, some p.2, pctOf p.2 denom⟩)

/-- Lines 34–38: `reindex` to the canonical four categories, inserting a
row of nulls for an absent category (the source performs the reindex
twice, idempotently). -/
def reindexRows (l : List SummaryRow) : List SummaryRow :=
  desiredOrder.map (fun c =>
    match l.find? (fun r => r.category == c) with
    | some r => r
    | none => ⟨c, none, none⟩)

/-- The fallible pivot pipeline of `create_report_pivot_table`
(lines 13–38), as a function of the over-production `(label, total_cost)`
items.  Failure points of the source:
* an empty over-production selection: `pivot_table` with its default
  `dropna=True` drops the all-NaN `total_cost` column of the empty
  result, so line 24 raises `KeyError: 'total_cost'`;
* a duplicated `Over Production` index label at line 24
  (`.loc` alignment on a duplicate axis raises);
* any duplicated index label at the reindex of line 35
  (pandas refuses to reindex a non-unique axis). -/
def pivotCore (items : List (String × ℚ)) : Except String (List SummaryRow) :=
  if (pivotGroups items).isEmpty then
    Except.error "KeyError: total_cost"
  else
    match (roundedPivot items).filter (fun p => p.1 == "Over Production") with
    | [d] =>
      if ((renamedRows items d.2).map (fun r => r.category)).Nodup then
        Except.ok (reindexRows (renamedRows items d.2))
      else
        Except.error "cannot reindex on an axis with duplicate labels"
    | _ => Except.error "cannot reindex from a duplicate axis"

/-- The over-production contribution of one row: its label and derived
total cost when the label is present and carries the `**` marker,
nothing otherwise (lines 9 and 13). -/
def opItem (r : Row) : Option (String × ℚ) :=
  match r.srvcrsname with
  | some l => if startsWithMarker l then some (l, totalCost r) else none
  | none => none

def opItems (rows : List Row) : List (String × ℚ) := rows.filterMap opItem

/-- Embedding of `create_report_pivot_table(df, label)` (lines 7–40).
First component:
the caller's frame after the call — the function mutates it in place,
dropping rows with a null `srvcrsname` (line 9, `inplace=True`) and
adding the `total_cost` column (line 10).  Second component: the returned
four-row summary, or the raised exception.  The `label` argument of the
source only names the first output column and never affects any value. -/
def create_report_pivot_table (rows : List Row) :
    List Row × Except String (List SummaryRow) :=
  let df := (rows.filter (fun r => r.srvcrsname.isSome)).map
    (fun r => { r with total_cost := some (totalCost r) })
  let op := df.filter (fun r => startsWithMarker (r.srvcrsname.getD ""))
  (df, pivotCore (op.map (fun r => (r.srvcrsname.getD "", r.total_cost.getD 0))))

/-- The `Cost` cell of row `k`, null when the row or the cell is
absent. -/
def colCost (df : List SummaryRow) (k : Nat) : Option ℚ :=
  df[k]?.bind SummaryRow.cost

/-- Addition of nullable cells: a null operand (pandas NaN) is
absorbing. -/
def optAdd (a b : Option ℚ) : Option ℚ :=
  match a, b with
  | some x, some y => some (x + y)
  | _, _ => none

def optAdd3 (a b c : Option ℚ) : Option ℚ := optAdd (optAdd a b) c

/-- The columns of the frame built by `generate_exec_summary`
(lines 44–48): the single data column `"Residential (All Units)"`,
preceded by the `"index"` column that `reset_index` inserts for the
unnamed index.  No percentage column exists. -/
def execSummaryColumns : List String := ["index", "Residential (All Units)"]

/-- Embedding of `generate_exec_summary(evk_pivot, irc_pivot, uv_pivot)`
(lines 43–48):
positional (range-index aligned) sum of the three `Cost` columns
(`iloc[:, 1]`), a position missing from a shorter frame contributing NaN.
Assigning the four canonical labels as the index (line 46) raises a
length-mismatch `ValueError` unless the combined column has exactly four
entries, i.e. unless the longest input has exactly four rows. -/
def generate_exec_summary (evk irc uv : List SummaryRow) :
    Except String (List (String × Option ℚ)) :=
  let n := max evk.length (max irc.length uv.length)
  let sums := (List.range n).map
    (fun k => optAdd (optAdd (colCost evk k) (colCost irc k)) (colCost uv k))
  if sums.length = 4 then
    Except.ok (desiredOrder.zip sums)
  else
    Except.error "Length mismatch"

/-- Model of `pivot.loc[3, "Cost"]` (lines 85–87): the `Cost` cell of row 3
of a summary; a `KeyError` when the summary has no row 3. -/
def locCost (df : List SummaryRow) (k : Nat) : Except String (Option ℚ) :=
  match df[k]? with
  | some r => Except.ok r.cost
  | none => Except.error "KeyError: 3"

/-- The exception `worksheet.write` raises on a NaN numeric cell: the
workbook is opened at line 64 with only the in-memory option, so
xlsxwriter refuses NaN/INF values. -/
def nanWriteError : String :=
  "TypeError: NAN/INF not supported in write_number() without nan_inf_to_errors"

/-- Whether a run of numeric cells can be written to the worksheet:
every cell must hold a finite number; a null (NaN) cell makes the write
raise `nanWriteError`. -/
def canWrite (cells : List (Option ℚ)) : Bool := cells.all Option.isSome

/-- The numeric cells of one facility detail table, in the order
`write_table` writes them (lines 119–126): for each row its `Cost` cell
then its `Percentage` cell. -/
def tableCells (df : List SummaryRow) : List (Option ℚ) :=
  (df.map (fun r => [r.cost, r.percentage])).flatten

/-- The observable content that `generate_report` writes into the
workbook (lines 61–144): the fixed section titles, the executive-summary
block, the per-hall over-production totals feeding the chart, and the
three per-facility detail tables. -/
structure Report where
  title : String
  sheetName : String
  execColumns : List String
  execRows : List (String × Option ℚ)
  hallTotals : List (String × Option ℚ)
  facilityTables : List (String × List SummaryRow)
deriving DecidableEq

/-- The compile stage of `generate_report` (lines 58–144), consuming the
three facility summaries.  In source order: build the executive summary
(line 58, a `ValueError` on a wrong combined length); write the
executive block's total cells (lines 73–75 — a NaN total raises
`TypeError`, since the workbook lacks the nan-to-errors option); read
each facility's `Over Production` total from row 3 (lines 84–88, a
`KeyError` on a short table); write the hall totals (lines 90–92) and
the three facility detail tables (lines 128–133), where again any NaN
`Cost` or `Percentage` cell raises `TypeError`.  Any exception
propagates to the caller and no buffer is returned. -/
def compile_report (evk irc uv : List SummaryRow) : Except String Report :=
  match generate_exec_summary evk irc uv with
  | Except.error e => Except.error e
  | Except.ok ex =>
    if canWrite (ex.map Prod.snd) then
      match locCost evk 3 with
      | Except.error e => Except.error e
      | Except.ok tE =>
        match locCost irc 3 with
        | Except.error e => Except.error e
        | Except.ok tI =>
          match locCost uv 3 with
          | Except.error e => Except.error e
          | Except.ok tU =>
            if canWrite [tE, tI, tU] then
              if canWrite (tableCells evk) then
                if canWrite (tableCells irc) then
                  if canWrite (tableCells uv) then
                    Except.ok
                      { title := "Executive Summary"
                        sheetName := "Over Production Summary"
                        execColumns := execSummaryColumns
                        execRows := ex
                        hallTotals := [("EVK", tE), ("IRC", tI), ("UV", tU)]
                        facilityTables := [("EVK", evk), ("IRC", irc), ("UV", uv)] }
                  else Except.error nanWriteError
                else Except.error nanWriteError
              else Except.error nanWriteError
            else Except.error nanWriteError
    else Except.error nanWriteError

/-- Embedding of `generate_report(evk_df, irc_df, uv_df)` (lines 51–144):
aggregate
each facility's table, then compile the workbook content. -/
def generate_report (evk irc uv : List Row) : Except String Report :=
  match (create_report_pivot_table evk).2 with
  | Except.error e => Except.error e
  | Except.ok pe =>
    match (create_report_pivot_table irc).2 with
    | Except.error e => Except.error e
    | Except.ok pirc =>
      match (create_report_pivot_table uv).2 with
      | Except.error e => Except.error e
      | Except.ok pu => compile_report pe pirc pu

/-- Whether a fallible computation returned normally. -/
def isOkE {α : Type} : Except String α → Bool
  | Except.ok _ => true
  | Except.error _ => false

/-- A pointwise change of the event-date column only. -/
def setDateRow (f : Option String → Option String) (r : Row) : Row :=
  { r with event_date := f r.event_date }

/-- Two rows identical except that the first may carry the label
`"Thrown"` where the second carries `"Waste"`. -/
def thrownToWaste (r1 r2 : Row) : Prop :=
  r2 = r1 ∨ (r1.srvcrsname = some "Thrown" ∧ r2 = { r1 with srvcrsname := some "Waste" })

/-- The spec's end-to-end scenario for one facility: one `"**Spoilage"`
record (qty 10, unit cost 2.00) and one `"Reused"` record (qty 5, unit
cost 3.00), no `"Donated"` record. -/
def scenarioInput : List Row :=
  [{ srvcrsname := some "**Spoilage", served_prtncount := 10, costprice := 2 },
   { srvcrsname := some "Reused", served_prtncount := 5, costprice := 3 }]

/-- A facility input with zero over-production rows: no label carries
the `**` marker. -/
def noOPInput : List Row :=
  [{ srvcrsname := some "Reused", served_prtncount := 5, costprice := 3 }]

/-- A facility input whose over-production labels collide after
marker-stripping and the `Thrown → Waste` rename. -/
def dupLabelInput : List Row :=
  [{ srvcrsname := some "**Thrown", served_prtncount := 1, costprice := 1 },
   { srvcrsname := some "**Waste", served_prtncount := 1, costprice := 1 }]

/-- A facility input holding one null-label row and one over-production
row. -/
def mutInput : List Row :=
  [{ srvcrsname := none, served_prtncount := 1, costprice := 1 },
   { srvcrsname := some "**A", served_prtncount := 2, costprice := 3 }]

/-- A facility input whose records carry parsable event dates spanning
March 2024 and cover every canonical category (`"**Reused"`,
`"**Thrown"` → Waste, `"**Donated"`), so that the aggregated summary has
no null cell and the writer completes. -/
def datedFullInput : List Row :=
  [{ srvcrsname := some "**Reused", served_prtncount := 5, costprice := 3,
     event_date := some "03/01/2024" },
   { srvcrsname := some "**Thrown", served_prtncount := 2, costprice := 1,
     event_date := some "03/15/2024" },
   { srvcrsname := some "**Donated", served_prtncount := 1, costprice := 1,
     event_date := some "03/31/2024" }]

/-- Two facility inputs identical except that one uses the label
`"Thrown"` where the other uses `"Waste"`. -/
def thrownInput : List Row :=
  [{ srvcrsname := some "**Spoilage", served_prtncount := 10, costprice := 2 },
   { srvcrsname := some "Thrown", served_prtncount := 1, costprice := 1 }]

def wasteInput : List Row :=
  [{ srvcrsname := some "**Spoilage", served_prtncount := 10, costprice := 2 },
   { srvcrsname := some "Waste", served_prtncount := 1, costprice := 1 }]

/-- A base facility input and extra rows of the excluded class. -/
def barsBase : List Row :=
  [{ srvcrsname := some "**Spoilage", served_prtncount := 10, costprice := 2 }]

def barsExtra : List Row :=
  [{ srvcrsname := some "Bars", served_prtncount := 4, costprice := 5 }]

/-- A four-row summary carrying labels outside the canonical category
set — a malformed table in the sense of the Compiler's contract — whose
numeric cells are all defined, so only a label check could reject it. -/
def badSummary : List SummaryRow :=
  [⟨"A", some 1, some 1⟩, ⟨"B", some 2, some (1/2)⟩, ⟨"C", some 3, some (3/2)⟩,
   ⟨"D", some 4, some 2⟩]

/-- A well-formed four-row summary in the canonical order with every
numeric cell defined, so the writer can serialize it. -/
def filledSummary : List SummaryRow :=
  [⟨"Reused", some 1, some (1/2)⟩, ⟨"Waste", some (1/2), some (1/4)⟩,
   ⟨"Donated", some (1/2), some (1/4)⟩, ⟨"Over Production", some 2, some 1⟩]

/-- A well-formed four-row summary in the canonical order. -/
def goodSummary : List SummaryRow :=
  [⟨"Reused", some 1, some (1/2)⟩, ⟨"Waste", some 1, none⟩, ⟨"Donated", none, none⟩,
   ⟨"Over Production", some 2, some 1⟩]

end PostServiceReport

namespace PostServiceReport

/-! ### Structural lemmas about the embedding -/

/-- The summary returned by `create_report_pivot_table` is a function of
the over-production `(label, total cost)` items of the input alone. -/
theorem create_pivot_snd (rows : List Row) :
    (create_report_pivot_table rows).2 = pivotCore (opItems rows) := by
  have h : ∀ t : List Row,
      ((((t.filter (fun r => r.srvcrsname.isSome)).map
          (fun r => { r with total_cost := some (totalCost r) })).filter
          (fun r => startsWithMarker (r.srvcrsname.getD ""))).map
          (fun r => (r.srvcrsname.getD "", r.total_cost.getD 0))) = opItems t := by
    intro t
    induction t with
    | nil => rfl
    | cons r t ih =>
      cases hs : r.srvcrsname with
      | none =>
        simpa [opItems, List.filter_cons, List.filterMap_cons, opItem, hs] using ih
      | some l =>
        by_cases hm : startsWithMarker l
        · simpa [opItems, List.filter_cons, List.filterMap_cons, opItem, hs, hm] using ih
        · simpa [opItems, List.filter_cons, List.filterMap_cons, opItem, hs, hm] using ih
  simpa [create_report_pivot_table] using congrArg pivotCore (h rows)

/-- The reindexed summary's label column is exactly `desired_order`. -/
theorem reindexRows_map_category (l : List SummaryRow) :
    (reindexRows l).map (fun r => r.category) = desiredOrder := by
  have h : ∀ c : String,
      (SummaryRow.category (match l.find? (fun r => r.category == c) with
        | some r => r
        | none => ⟨c, none, none⟩)) = c := by
    intro c
    cases hf : l.find? (fun r => r.category == c) with
    | none => rfl
    | some r => simpa using List.find?_some hf
  unfold reindexRows
  rw [List.map_map]
  conv_rhs => rw [← List.map_id desiredOrder]
  refine List.map_congr_left ?_
  intro c _
  exact h c

/-- Shape of a successful run of the pivot pipeline. -/
theorem pivotCore_ok_shape {items : List (String × ℚ)} {out : List SummaryRow}
    (h : pivotCore items = Except.ok out) :
    ∃ d : String × ℚ,
      (roundedPivot items).filter (fun p => p.1 == "Over Production") = [d] ∧
      ((renamedRows items d.2).map (fun r => r.category)).Nodup ∧
      out = reindexRows (renamedRows items d.2) := by
  unfold pivotCore at h
  split at h
  · exact absurd h (by simp)
  · split at h
    · rename_i d _
      split at h
      · rename_i hnodup
        refine ⟨d, ?_, hnodup, ?_⟩
        · assumption
        · exact (Except.ok.injEq _ _).mp h |>.symm
      · exact absurd h (by simp)
    · exact absurd h (by simp)

/-- If the `Over Production` entry of the rounded pivot is the single
pair `d`, then the reindex lookup for `"Over Production"` among the
renamed summary rows returns exactly the row built from `d`. -/
theorem find?_overprod {l : List (String × ℚ)} {d : String × ℚ} (denom : ℚ)
    (h : l.filter (fun p => p.1 == "Over Production") = [d]) :
    ((l.map (fun p => (⟨renameThrown p.1, some p.2, pctOf p.2 denom⟩ : SummaryRow))).find?
      (fun r => r.category == "Over Production")) =
    some ⟨"Over Production", some d.2, pctOf d.2 denom⟩ := by
  induction l with
  | nil => simp at h
  | cons p t ih =>
    by_cases hp : p.1 = "Over Production"
    · rw [List.filter_cons_of_pos (by simpa using hp)] at h
      obtain ⟨hpd, ht⟩ := List.cons_eq_cons.mp h
      have hren : renameThrown p.1 = "Over Production" := by
        rw [hp]; rfl
      rw [List.map_cons, List.find?_cons_of_pos _ (by simpa using hren)]
      rw [← hpd, ← hren]
    · rw [List.filter_cons_of_neg (by simpa using hp)] at h
      have hren : renameThrown p.1 ≠ "Over Production" := by
        unfold renameThrown
        split
        · decide
        · exact hp
      rw [List.map_cons, List.find?_cons_of_neg _ (by simpa using hren)]
      exact ih h

/-- Any report the compile stage returns carries the fixed header
texts. -/
theorem compile_report_header {e i u : List SummaryRow} {rep : Report}
    (h : compile_report e i u = Except.ok rep) :
    rep.title = "Executive Summary" ∧ rep.sheetName = "Over Production Summary" := by
  unfold compile_report at h
  repeat' split at h
  any_goals exact Except.noConfusion h
  obtain rfl := (Except.ok.injEq _ _).mp h
  exact ⟨rfl, rfl⟩

/-! ### C1: the spec's end-to-end scenario -/

/-- C1 counterexample.  At the spec's own scenario input — one
`"**Spoilage"` record (10 × 2.00) and one `"Reused"` record (5 × 3.00)
per facility — the facility summary is NOT the claimed
`[("Reused", 15.00, 0.75), ("Waste", null, null), ("Donated", null, null),
("Over Production", 20.00, 1.00)]`: the plain `"Reused"` label carries no
`**` marker, so it never enters the over-production pivot. -/
theorem c1_counterexample :
    (create_report_pivot_table scenarioInput).2 ≠ Except.ok
      [⟨"Reused", some 15, some (3/4)⟩, ⟨"Waste", none, none⟩, ⟨"Donated", none, none⟩,
       ⟨"Over Production", some 20, some 1⟩] := by
  with_unfolding_all decide

/-- C1 amended.  At the scenario input each facility's summary is
`[("Reused", null, null), ("Waste", null, null), ("Donated", null, null),
("Over Production", 20.00, 1.00)]` — the `"Reused"` row is null because
the label lacks the `**` marker — and the executive summary computed
from those three summaries carries the `Over Production` total exactly
60.00.  The report writer itself then fails on the null executive cells
(xlsxwriter rejects NaN), so `generate_report` raises and returns no
workbook at this input. -/
theorem c1_amended_theorem :
    (create_report_pivot_table scenarioInput).2 = Except.ok
      [⟨"Reused", none, none⟩, ⟨"Waste", none, none⟩, ⟨"Donated", none, none⟩,
       ⟨"Over Production", some 20, some 1⟩] ∧
    generate_exec_summary
      [⟨"Reused", none, none⟩, ⟨"Waste", none, none⟩, ⟨"Donated", none, none⟩,
       ⟨"Over Production", some 20, some 1⟩]
      [⟨"Reused", none, none⟩, ⟨"Waste", none, none⟩, ⟨"Donated", none, none⟩,
       ⟨"Over Production", some 20, some 1⟩]
      [⟨"Reused", none, none⟩, ⟨"Waste", none, none⟩, ⟨"Donated", none, none⟩,
       ⟨"Over Production", some 20, some 1⟩] =
      Except.ok [("Reused", none), ("Waste", none), ("Donated", none),
        ("Over Production", some 60)] ∧
    generate_report scenarioInput scenarioInput scenarioInput =
      Except.error nanWriteError := by
  with_unfolding_all decide

/-! ### C2: the four-row fixed-order invariant -/

/-- C2 counterexample.  The claim quantifies over every facility input,
but on an input holding both a `"**Thrown"` and a `"**Waste"` row the
aggregator raises (`reindex` refuses the duplicate `"Waste"` label that
the `Thrown → Waste` rename creates) and returns no summary at all. -/
theorem c2_counterexample :
    (create_report_pivot_table dupLabelInput).2 =
      Except.error "cannot reindex on an axis with duplicate labels" ∧
    isOkE (create_report_pivot_table dupLabelInput).2 = false := by
  with_unfolding_all decide

/-- C2 amended.  Whenever the Aggregator returns a summary at all (it
raises on zero over-production rows, and when stripped-and-renamed
over-production labels collide), that summary has exactly four rows
whose labels are exactly `Reused, Waste, Donated, Over Production` in
this order. -/
theorem c2_amended_theorem (rows : List Row) (out : List SummaryRow)
    (h : (create_report_pivot_table rows).2 = Except.ok out) :
    out.map (fun r => r.category) = desiredOrder ∧ out.length = 4 := by
  rw [create_pivot_snd] at h
  obtain ⟨d, _, _, rfl⟩ := pivotCore_ok_shape h
  refine ⟨reindexRows_map_category _, ?_⟩
  have := congrArg List.length (reindexRows_map_category (renamedRows (opItems rows) d.2))
  simpa using this

/-- C2 witness: a concrete input on which the Aggregator returns. -/
theorem c2_witness :
    ([⟨"Reused", none, none⟩, ⟨"Waste", none, none⟩, ⟨"Donated", none, none⟩,
      ⟨"Over Production", some 20, some 1⟩] : List SummaryRow).map (fun r => r.category) =
        desiredOrder ∧
    ([⟨"Reused", none, none⟩, ⟨"Waste", none, none⟩, ⟨"Donated", none, none⟩,
      ⟨"Over Production", some 20, some 1⟩] : List SummaryRow).length = 4 :=
  c2_amended_theorem scenarioInput _ (by with_unfolding_all decide)

/-! ### C3: zero over-production rows -/

/-- C3: the code, evaluated at a facility input with zero
over-production rows.  Contrary to the spec's requirement of a
non-crashing all-null four-row summary, the aggregator raises: the empty
over-production selection makes `pivot_table` drop the all-NaN
`total_cost` column, so line 24 of `generate_report.py` raises
`KeyError: 'total_cost'`. -/
theorem c3_failing_eval :
    (create_report_pivot_table noOPInput).2 = Except.error "KeyError: total_cost" ∧
    isOkE (create_report_pivot_table noOPInput).2 = false := by
  with_unfolding_all decide

/-! ### C5: the Over Production percentage is 1 -/

theorem round2_one : round2 1 = 1 := by with_unfolding_all decide

/-- C5.  Whenever the Aggregator returns a summary and the
`Over Production` row (row 3) carries a strictly positive total — the
rounded `over_production_total` of the spec — that row's percentage cell
is exactly `1.0`: the code divides the total by itself and rounds. -/
theorem c5_theorem (rows : List Row) (out : List SummaryRow) (r : SummaryRow) (t : ℚ)
    (hok : (create_report_pivot_table rows).2 = Except.ok out)
    (hrow : out[3]? = some r) (hcost : r.cost = some t) (hpos : 0 < t) :
    r.percentage = some 1 := by
  rw [create_pivot_snd] at hok
  obtain ⟨d, hfil, -, rfl⟩ := pivotCore_ok_shape hok
  have hfind : (renamedRows (opItems rows) d.2).find? (fun r => r.category == "Over Production")
      = some ⟨"Over Production", some d.2, pctOf d.2 d.2⟩ := by
    unfold renamedRows
    exact find?_overprod d.2 hfil
  have h3 : (reindexRows (renamedRows (opItems rows) d.2))[3]? =
      some (⟨"Over Production", some d.2, pctOf d.2 d.2⟩ : SummaryRow) := by
    simp [reindexRows, desiredOrder, hfind]
  rw [h3] at hrow
  obtain rfl := (Option.some.injEq _ _).mp hrow
  have ht : d.2 = t := by simpa using hcost
  show pctOf d.2 d.2 = some 1
  rw [ht]
  unfold pctOf
  rw [if_neg (ne_of_gt hpos), div_self (ne_of_gt hpos), round2_one]

/-- C5 witness: at the scenario input the Over Production row holds
total 20 > 0 and percentage exactly 1. -/
theorem c5_witness :
    SummaryRow.percentage ⟨"Over Production", some 20, some 1⟩ = some 1 :=
  c5_theorem scenarioInput
    [⟨"Reused", none, none⟩, ⟨"Waste", none, none⟩, ⟨"Donated", none, none⟩,
     ⟨"Over Production", some 20, some 1⟩]
    ⟨"Over Production", some 20, some 1⟩ 20
    (by with_unfolding_all decide) rfl rfl (by with_unfolding_all decide)

/-! ### C6: purity of the Aggregator -/

/-- C6 counterexample.  The Aggregator is not pure with respect to its
caller's table: after the call on `mutInput` the table has lost its
null-label row and gained a `total_cost` column, so it differs from the
input. -/
theorem c6_counterexample : (create_report_pivot_table mutInput).1 ≠ mutInput := by
  with_unfolding_all decide

/-- C6 amended.  The Aggregator performs no I/O and is deterministic (it
is a function of its argument), but it mutates the caller's table; the
mutation is exactly: every surviving row comes from an input row with
label, quantity, unit cost and date unchanged and `total_cost` set to
quantity × unit cost, and every input row with a non-null label survives
in that mutated form. -/
theorem c6_amended_theorem :
    (∀ rows : List Row, ∀ r' ∈ (create_report_pivot_table rows).1,
      ∃ r ∈ rows, r'.srvcrsname = r.srvcrsname ∧
        r'.served_prtncount = r.served_prtncount ∧
        r'.costprice = r.costprice ∧ r'.event_date = r.event_date ∧
        r'.total_cost = some (totalCost r)) ∧
    (∀ rows : List Row, ∀ r ∈ rows, r.srvcrsname.isSome = true →
      { r with total_cost := some (totalCost r) } ∈ (create_report_pivot_table rows).1) := by
  constructor
  · intro rows r' hr'
    simp only [create_report_pivot_table, List.mem_map, List.mem_filter] at hr'
    obtain ⟨r, ⟨hmem, -⟩, rfl⟩ := hr'
    exact ⟨r, hmem, rfl, rfl, rfl, rfl, rfl⟩
  · intro rows r hmem hsome
    simp only [create_report_pivot_table, List.mem_map, List.mem_filter]
    exact ⟨r, ⟨hmem, hsome⟩, rfl⟩

/-- C6 witness: the surviving row of `mutInput`, in mutated form, is in
the post-call table. -/
theorem c6_witness :
    (⟨some "**A", 2, 3, none, some (totalCost ⟨some "**A", 2, 3, none, none⟩)⟩ : Row) ∈
      (create_report_pivot_table mutInput).1 :=
  c6_amended_theorem.2 mutInput ⟨some "**A", 2, 3, none, none⟩
    (List.mem_cons_of_mem _ (List.mem_singleton.mpr rfl)) rfl

/-! ### C9: the Thrown/Waste synonym round trip -/

/-- C9.  Two facility inputs identical except for `"Thrown"` labels in
one standing where `"Waste"` labels stand in the other produce identical
summaries.  (In the source the rename happens on the pivot output at
line 33; rows labelled plain `"Thrown"` or `"Waste"` carry no `**`
marker, so neither ever reaches the pivot, and the outputs agree.) -/
theorem c9_theorem (df1 df2 : List Row) (h : List.Forall₂ thrownToWaste df1 df2) :
    (create_report_pivot_table df1).2 = (create_report_pivot_table df2).2 := by
  rw [create_pivot_snd, create_pivot_snd]
  suffices hop : opItems df1 = opItems df2 by rw [hop]
  unfold opItems
  induction h with
  | nil => rfl
  | @cons a b l1 l2 hr htail ih =>
    have hm1 : startsWithMarker "Thrown" = false := by decide
    have hm2 : startsWithMarker "Waste" = false := by decide
    have hab : opItem a = opItem b := by
      rcases hr with rfl | ⟨h1, rfl⟩
      · rfl
      · simp [opItem, h1, hm1, hm2]
    rw [List.filterMap_cons, List.filterMap_cons, hab, ih]

/-- C9 witness: concrete pair differing only in a `Thrown`/`Waste`
label. -/
theorem c9_witness :
    (create_report_pivot_table thrownInput).2 = (create_report_pivot_table wasteInput).2 :=
  c9_theorem thrownInput wasteInput
    (List.Forall₂.cons (Or.inl rfl)
      (List.Forall₂.cons (Or.inr ⟨rfl, rfl⟩) List.Forall₂.nil))

/-! ### C10: noninterference of excluded rows -/

/-- C10.  Appending rows whose label does not begin with the `**` marker
(`"Bars"` in particular; a missing label counts as the empty string,
which carries no marker) never changes the Aggregator's summary: such
rows contribute to no cost total and no percentage. -/
theorem c10_theorem (base extra : List Row)
    (h : extra.all (fun r => !(startsWithMarker (r.srvcrsname.getD ""))) = true) :
    (create_report_pivot_table (base ++ extra)).2 = (create_report_pivot_table base).2 := by
  rw [create_pivot_snd, create_pivot_snd]
  suffices hop : opItems (base ++ extra) = opItems base by rw [hop]
  unfold opItems
  rw [List.filterMap_append]
  have hx : extra.filterMap opItem = [] := by
    rw [List.filterMap_eq_nil_iff]
    intro r hr
    have hb := List.all_eq_true.mp h r hr
    unfold opItem
    cases hs : r.srvcrsname with
    | none => rfl
    | some l =>
      rw [hs] at hb
      simp only [Option.getD_some, Bool.not_eq_true'] at hb
      simp [hb]
  rw [hx, List.append_nil]

/-- C10 witness: a `"Bars"` row appended to a concrete base input leaves
the summary unchanged. -/
theorem c10_witness :
    (create_report_pivot_table (barsBase ++ barsExtra)).2 =
      (create_report_pivot_table barsBase).2 :=
  c10_theorem barsBase barsExtra (by decide)

/-! ### C4: the executive summary -/

/-- C4 counterexample.  The executive summary built by
`generate_exec_summary` carries no percentage column at all: its frame
has exactly the two columns `["index", "Residential (All Units)"]`, and
its rows are (label, combined total) pairs only — here evaluated on a
concrete triple of four-row summaries. -/
theorem c4_counterexample :
    generate_exec_summary goodSummary goodSummary goodSummary =
      Except.ok [("Reused", some 3), ("Waste", some 3), ("Donated", none),
        ("Over Production", some 6)] ∧
    "Percentage" ∉ execSummaryColumns ∧ execSummaryColumns.length = 2 := by
  with_unfolding_all decide

/-- C4 amended.  For any three four-row summaries the executive summary
is the element-wise (positionally aligned, hence category-aligned) sum
of the per-facility `Cost` columns in the fixed four-row order; in
particular its `Over Production` entry is the exact, un-re-rounded sum
(`optAdd` adds exactly) of the three facilities' `Over Production`
totals.  No percentage column is computed. -/
theorem c4_amended_theorem (e i u : List SummaryRow)
    (he : e.length = 4) (hi : i.length = 4) (hu : u.length = 4) :
    generate_exec_summary e i u = Except.ok
      [("Reused", optAdd3 (colCost e 0) (colCost i 0) (colCost u 0)),
       ("Waste", optAdd3 (colCost e 1) (colCost i 1) (colCost u 1)),
       ("Donated", optAdd3 (colCost e 2) (colCost i 2) (colCost u 2)),
       ("Over Production", optAdd3 (colCost e 3) (colCost i 3) (colCost u 3))] := by
  unfold generate_exec_summary
  rw [he, hi, hu]
  rfl

/-- C4 witness: the amended statement at a concrete summary triple. -/
theorem c4_witness :
    generate_exec_summary goodSummary goodSummary goodSummary = Except.ok
      [("Reused", optAdd3 (colCost goodSummary 0) (colCost goodSummary 0) (colCost goodSummary 0)),
       ("Waste", optAdd3 (colCost goodSummary 1) (colCost goodSummary 1) (colCost goodSummary 1)),
       ("Donated", optAdd3 (colCost goodSummary 2) (colCost goodSummary 2) (colCost goodSummary 2)),
       ("Over Production", optAdd3 (colCost goodSummary 3) (colCost goodSummary 3) (colCost goodSummary 3))] :=
  c4_amended_theorem goodSummary goodSummary goodSummary rfl rfl rfl

/-! ### C7: the report header and the date range -/

/-- Any report `generate_report` returns carries the fixed header
texts. -/
theorem generate_report_header {e i u : List Row} {rep : Report}
    (h : generate_report e i u = Except.ok rep) :
    rep.title = "Executive Summary" ∧ rep.sheetName = "Over Production Summary" := by
  unfold generate_report at h
  split at h
  · exact absurd h (by simp)
  · split at h
    · exact absurd h (by simp)
    · split at h
      · exact absurd h (by simp)
      · exact compile_report_header h

/-- C7 counterexample.  On a concrete input whose records span
03/01/2024–03/31/2024 (and cover every canonical category, so the writer
completes and a report is actually produced), the report's header text
is the constant `"Executive Summary"`, which does not contain the
claimed `MM/DD/YYYY - MM/DD/YYYY` range string (it is shorter than the
range string itself). -/
theorem c7_counterexample :
    (generate_report datedFullInput datedFullInput datedFullInput).map Report.title =
      Except.ok "Executive Summary" ∧
    ¬ ∃ pre post : String,
      "Executive Summary" = pre ++ "03/01/2024 - 03/31/2024" ++ post := by
  constructor
  · with_unfolding_all decide
  · rintro ⟨p, q, h⟩
    have hl : ("Executive Summary" : String).length =
        ((p ++ "03/01/2024 - 03/31/2024") ++ q).length := by rw [← h]
    rw [String.length_append, String.length_append] at hl
    have h1 : ("Executive Summary" : String).length = 17 := by
      with_unfolding_all rfl
    have h2 : ("03/01/2024 - 03/31/2024" : String).length = 23 := by
      with_unfolding_all rfl
    omega

/-- C7 amended.  The generated report contains no date range at all:
the event-date column never influences the output (changing every
`event_date` arbitrarily yields the identical report), and the header
texts are the fixed strings `"Executive Summary"` and
`"Over Production Summary"`. -/
theorem c7_amended_theorem :
    (∀ (f : Option String → Option String) (e i u : List Row),
      generate_report (e.map (setDateRow f)) (i.map (setDateRow f)) (u.map (setDateRow f)) =
        generate_report e i u) ∧
    (∀ e i u : List Row, isOkE (generate_report e i u) = true →
      (generate_report e i u).map Report.title = Except.ok "Executive Summary" ∧
      (generate_report e i u).map Report.sheetName = Except.ok "Over Production Summary") := by
  constructor
  · intro f e i u
    have hp : ∀ l : List Row,
        (create_report_pivot_table (l.map (setDateRow f))).2 =
          (create_report_pivot_table l).2 := by
      intro l
      rw [create_pivot_snd, create_pivot_snd]
      suffices hop : opItems (l.map (setDateRow f)) = opItems l by rw [hop]
      unfold opItems
      induction l with
      | nil => rfl
      | cons r t ih =>
        rw [List.map_cons, List.filterMap_cons, List.filterMap_cons, ih]
        rfl
    unfold generate_report
    rw [hp e, hp i, hp u]
  · intro e i u hok
    cases hg : generate_report e i u with
    | error s => rw [hg] at hok; simp [isOkE] at hok
    | ok rep =>
      obtain ⟨h1, h2⟩ := generate_report_header hg
      simp [Except.map, h1, h2]

/-- C7 witness: erasing every event date of a concrete input (one on
which the writer completes) leaves the report unchanged, and that
report's title is the fixed header text. -/
theorem c7_witness :
    generate_report (datedFullInput.map (setDateRow (fun _ => none)))
        (datedFullInput.map (setDateRow (fun _ => none)))
        (datedFullInput.map (setDateRow (fun _ => none))) =
      generate_report datedFullInput datedFullInput datedFullInput ∧
    (generate_report datedFullInput datedFullInput datedFullInput).map Report.title =
      Except.ok "Executive Summary" :=
  ⟨c7_amended_theorem.1 (fun _ => none) datedFullInput datedFullInput datedFullInput,
   (c7_amended_theorem.2 datedFullInput datedFullInput datedFullInput
     (by with_unfolding_all decide)).1⟩

/-! ### C8: Compiler validation of the summaries -/

/-- A null operand makes `optAdd` null; two defined operands keep it
defined. -/
theorem optAdd_isSome {a b : Option ℚ} (ha : a.isSome = true) (hb : b.isSome = true) :
    (optAdd a b).isSome = true := by
  cases a <;> cases b <;> simp_all [optAdd]

/-- A facility table can be written exactly when every row's `Cost` and
`Percentage` cells are defined. -/
theorem canWrite_tableCells (df : List SummaryRow) :
    canWrite (tableCells df) = true ↔
      ∀ r ∈ df, r.cost.isSome = true ∧ r.percentage.isSome = true := by
  induction df with
  | nil => simp [canWrite, tableCells]
  | cons r t ih =>
    have hc : tableCells (r :: t) = r.cost :: r.percentage :: tableCells t := rfl
    rw [canWrite] at ih ⊢
    rw [hc]
    simp only [List.all_cons, Bool.and_eq_true, List.mem_cons, forall_eq_or_imp, ih]
    tauto

/-- C8 counterexample.  A malformed four-row summary whose labels are
not the canonical categories (and whose cells are all defined, so only a
label check could reject it) is NOT rejected: the compile stage returns
a report for it, its executive-summary block silently carrying the
canonical labels instead. -/
theorem c8_counterexample :
    isOkE (compile_report badSummary badSummary badSummary) = true ∧
    badSummary.map (fun r => r.category) ≠ desiredOrder := by
  with_unfolding_all decide

/-- C8 amended.  The compile stage fails (the exception surfaces to the
caller, no buffer is produced) exactly when some facility summary does
not have four rows (a `ValueError` or `KeyError` before or between the
writes) or some summary carries an undefined `Cost` or `Percentage`
cell (the worksheet write of a NaN raises `TypeError`); the row count
and cell definedness are thus enforced, but category labels are never
validated. -/
theorem c8_amended_theorem (e i u : List SummaryRow) :
    isOkE (compile_report e i u) = true ↔
      ((e.length = 4 ∧ i.length = 4 ∧ u.length = 4) ∧
       canWrite (tableCells e) = true ∧ canWrite (tableCells i) = true ∧
       canWrite (tableCells u) = true) := by
  constructor
  · intro h
    cases hex : generate_exec_summary e i u with
    | error s => simp [compile_report, hex, isOkE] at h
    | ok ex =>
      have hmax : max e.length (max i.length u.length) = 4 := by
        simp only [generate_exec_summary] at hex
        split at hex
        · rename_i hc
          simpa using hc
        · exact absurd hex (by simp)
      have he_le : e.length ≤ 4 := by
        rw [← hmax]; exact le_max_left _ _
      have hi_le : i.length ≤ 4 := by
        rw [← hmax]; exact le_trans (le_max_left _ _) (le_max_right _ _)
      have hu_le : u.length ≤ 4 := by
        rw [← hmax]; exact le_trans (le_max_right _ _) (le_max_right _ _)
      cases hw1 : canWrite (ex.map Prod.snd) with
      | false => simp [compile_report, hex, hw1, isOkE] at h
      | true =>
        cases hE : e[3]? with
        | none => simp [compile_report, hex, hw1, locCost, hE, isOkE] at h
        | some rE =>
          cases hI : i[3]? with
          | none => simp [compile_report, hex, hw1, locCost, hE, hI, isOkE] at h
          | some rI =>
            cases hU : u[3]? with
            | none => simp [compile_report, hex, hw1, locCost, hE, hI, hU, isOkE] at h
            | some rU =>
              cases hw2 : canWrite [rE.cost, rI.cost, rU.cost] with
              | false =>
                simp [compile_report, hex, hw1, locCost, hE, hI, hU, hw2, isOkE] at h
              | true =>
                cases hw3 : canWrite (tableCells e) with
                | false =>
                  simp [compile_report, hex, hw1, locCost, hE, hI, hU, hw2, hw3,
                    isOkE] at h
                | true =>
                  cases hw4 : canWrite (tableCells i) with
                  | false =>
                    simp [compile_report, hex, hw1, locCost, hE, hI, hU, hw2, hw3,
                      hw4, isOkE] at h
                  | true =>
                    cases hw5 : canWrite (tableCells u) with
                    | false =>
                      simp [compile_report, hex, hw1, locCost, hE, hI, hU, hw2, hw3,
                        hw4, hw5, isOkE] at h
                    | true =>
                      have heg : 3 < e.length := by
                        by_contra hc
                        rw [List.getElem?_eq_none (by omega)] at hE
                        exact Option.noConfusion hE
                      have hig : 3 < i.length := by
                        by_contra hc
                        rw [List.getElem?_eq_none (by omega)] at hI
                        exact Option.noConfusion hI
                      have hug : 3 < u.length := by
                        by_contra hc
                        rw [List.getElem?_eq_none (by omega)] at hU
                        exact Option.noConfusion hU
                      exact ⟨⟨by omega, by omega, by omega⟩, rfl, rfl, rfl⟩
  · rintro ⟨⟨he, hi, hu⟩, hwe, hwi, hwu⟩
    have hex : generate_exec_summary e i u = Except.ok (desiredOrder.zip
        ((List.range 4).map
          (fun k => optAdd (optAdd (colCost e k) (colCost i k)) (colCost u k)))) := by
      unfold generate_exec_summary
      rw [he, hi, hu]
      rfl
    have hcells_e := (canWrite_tableCells e).mp hwe
    have hcells_i := (canWrite_tableCells i).mp hwi
    have hcells_u := (canWrite_tableCells u).mp hwu
    obtain ⟨rE, hE⟩ : ∃ r, e[3]? = some r := by
      cases h3 : e[3]? with
      | some r => exact ⟨r, rfl⟩
      | none => exact absurd (List.getElem?_eq_none_iff.mp h3) (by omega)
    obtain ⟨rI, hI⟩ : ∃ r, i[3]? = some r := by
      cases h3 : i[3]? with
      | some r => exact ⟨r, rfl⟩
      | none => exact absurd (List.getElem?_eq_none_iff.mp h3) (by omega)
    obtain ⟨rU, hU⟩ : ∃ r, u[3]? = some r := by
      cases h3 : u[3]? with
      | some r => exact ⟨r, rfl⟩
      | none => exact absurd (List.getElem?_eq_none_iff.mp h3) (by omega)
    have hcol : ∀ (df : List SummaryRow), df.length = 4 →
        (∀ r ∈ df, r.cost.isSome = true ∧ r.percentage.isSome = true) →
        ∀ k, k < 4 → (colCost df k).isSome = true := by
      intro df hlen hcells k hk
      have hk' : k < df.length := by omega
      rw [colCost, List.getElem?_eq_getElem hk']
      simpa using (hcells _ (List.getElem_mem hk')).1
    have hw1 : canWrite ((desiredOrder.zip
        ((List.range 4).map
          (fun k => optAdd (optAdd (colCost e k) (colCost i k)) (colCost u k)))).map
        Prod.snd) = true := by
      rw [List.map_snd_zip _ _ (by simp [desiredOrder])]
      rw [canWrite, List.all_eq_true]
      intro x hx
      simp only [List.mem_map, List.mem_range] at hx
      obtain ⟨k, hk, rfl⟩ := hx
      exact optAdd_isSome (optAdd_isSome (hcol e he hcells_e k hk)
        (hcol i hi hcells_i k hk)) (hcol u hu hcells_u k hk)
    have hw2 : canWrite [rE.cost, rI.cost, rU.cost] = true := by
      have h1 := (hcells_e rE (List.getElem?_mem hE)).1
      have h2 := (hcells_i rI (List.getElem?_mem hI)).1
      have h3 := (hcells_u rU (List.getElem?_mem hU)).1
      simp [canWrite, h1, h2, h3]
    simp [compile_report, hex, hw1, locCost, hE, hI, hU, hw2, hwe, hwi, hwu, isOkE]

/-- C8 witness: the compile stage succeeds on three well-formed four-row
summaries whose cells are all defined. -/
theorem c8_witness : isOkE (compile_report filledSummary filledSummary filledSummary) = true :=
  (c8_amended_theorem filledSummary filledSummary filledSummary).mpr
    ⟨⟨rfl, rfl, rfl⟩, by decide, by decide, by decide⟩

end PostServiceReport

